import Mathlib

/-!
Verification development for `scripts/parse_regions.py`.

The script tiles an atlas image into card-sized cells, crops named
sub-regions from every cell, optionally runs OCR and template matching,
and writes a JSON summary.  The embedding below translates the pure
decision logic of the script into Lean.  External library calls
(PIL image decoding, pytesseract OCR, OpenCV template matching) are
modelled as oracle functions supplied as parameters: the script only
inspects their results, so every branch the script takes is a function
of those results.

Conventions of the embedding:
  * Python `//` and `%` are floor division and floor modulus, embedded
    as `Int.fdiv` and `Int.fmod`.
  * Python exceptions that terminate `process_atlas` become
    `Except.error` with the script's message text.
  * An exception raised inside a per-region `try` block (OCR, one
    template-matching scale attempt) is modelled by the oracle
    returning `none`, matching the script's `except: continue` /
    "leave text as None" behaviour.
  * Match scores, which the script stores as floats in [-1, 1], are
    embedded as rationals.
  * JSON documents are embedded as an inductive `Json` with integer
    numbers; Python dicts are association lists with distinct keys.
-/

/-- JSON values as produced by `json.loads`.  Numbers are embedded as
integers (the regions files produced by the app store pixel sizes). -/
inductive Json where
  | null : Json
  | bool (b : Bool) : Json
  | num (n : Int) : Json
  | str (s : String) : Json
  | arr (elems : List Json) : Json
  | obj (fields : List (String × Json)) : Json

/-- Python `int(x)` applied to a JSON-decoded value: succeeds on
numbers, booleans and numeric strings, raises (returns `none`) on
`null`, lists and dicts. -/
def pyInt : Json → Option Int
  | Json.num n => some n
  | Json.bool b => some (if b then 1 else 0)
  | Json.str s => s.toInt?
  | _ => none

def regionsKey : String := "regions"

def imageSizeKey : String := "image_size"

def parseErrorMsg : String := "Failed to parse JSON"

def unrecognizedMsg : String := "Unrecognized regions JSON format"

/-- Model of `load_regions` (parse_regions.py lines 61-82).  The
`input` is the result of `json.loads` on the file text, `none` when
parsing failed. -/
def loadRegions (input : Option Json) :
    Except String (List Json × Option (Int × Int)) :=
  match input with
  | none => Except.error parseErrorMsg
  | some j =>
    match j with
    | Json.obj fields =>
      match fields.lookup regionsKey with
      | some (Json.arr rs) =>
        let image_size :=
          match fields.lookup imageSizeKey with
          | some (Json.arr es) =>
            match es with
            | a :: b :: _ =>
              match pyInt a, pyInt b with
              | some w, some h => some (w, h)
              | _, _ => none
            | _ => none
          | _ => none
        Except.ok (rs, image_size)
      | _ => Except.error unrecognizedMsg
    | Json.arr rs => Except.ok (rs, none)
    | _ => Except.error unrecognizedMsg

/-- Spec-side shape predicate, following the spec's words: the two
accepted input shapes are "a JSON object containing a `regions` list
(with optional `image_size`)" and "a plain JSON list of regions". -/
def specAcceptedShape (j : Json) : Prop :=
  (∃ fields, j = Json.obj fields ∧
      ∃ rs, fields.lookup regionsKey = some (Json.arr rs)) ∨
  (∃ rs, j = Json.arr rs)

/-- A rectangular region in a card's local coordinate space.  Fields
mirror the dict keys the script reads (`name` may be absent). -/
structure Region where
  name : Option String
  x : Int
  y : Int
  width : Int
  height : Int
deriving DecidableEq

/-- A loaded symbol template's metadata (`meta.get("name")` etc. in the
script, each possibly absent).  The pixel data lives behind the score
oracle. -/
structure Template where
  name : Option String
  glyph : Option String
  token : Option String
deriving DecidableEq

/-- One accepted template match (the dict appended at line 210). -/
structure TplMatch where
  name : Option String
  glyph : Option String
  token : Option String
  score : ℚ
  edge_score : ℚ
deriving DecidableEq

/-- One region's entry in the summary (lines 247-257). -/
structure RegionEntry where
  region_index : Nat
  name : String
  x : Int
  y : Int
  w : Int
  h : Int
  x_abs : Int
  y_abs : Int
  text : String
deriving DecidableEq

/-- One card's entry in the summary (line 149). -/
structure CardEntry where
  card_index : Nat
  col : Int
  row : Int
  regions : List RegionEntry
deriving DecidableEq

/-- The summary document (lines 132-139), minus the atlas path string. -/
structure Summary where
  atlas_size : Int × Int
  card_size : Int × Int
  cols : Int
  rows : Int
  cards : List CardEntry
deriving DecidableEq

/-- The CLI inputs reaching `process_atlas`, plus the atlas image's
dimensions reported by PIL. -/
structure RunConfig where
  atlas_w : Int
  atlas_h : Int
  do_ocr : Bool
  card_w_arg : Option Int
  card_h_arg : Option Int
  symbolsRequested : Bool
  symbol_threshold : ℚ
  symbol_edge_threshold : ℚ
deriving DecidableEq

/-- Which optional libraries imported successfully (lines 47-58). -/
structure Libs where
  hasPytesseract : Bool
  hasCv2 : Bool
deriving DecidableEq

/-- Python truthiness of an optional integer CLI argument
(`card_w_arg and card_h_arg`): `None` and `0` are falsy. -/
def pyTruthy : Option Int → Bool
  | some n => n != 0
  | none => false

def cardSizeErrorMsg : String :=
  "Card size not found in regions JSON; provide --card-width and --card-height"

def zeroDivisionMsg : String := "integer division or modulo by zero"

def gridErrorMsg (cw chh aw ah : Int) : String :=
  "Card size " ++ toString cw ++ "x" ++ toString chh ++
    " is larger than atlas " ++ toString aw ++ "x" ++ toString ah

/-- Card-size determination (lines 90-96): `image_size` from the
regions JSON wins; otherwise both CLI arguments must be truthy. -/
def determineCardSize (image_size : Option (Int × Int))
    (cwArg chArg : Option Int) : Except String (Int × Int) :=
  match image_size with
  | some sz => Except.ok sz
  | none =>
    if pyTruthy cwArg && pyTruthy chArg then
      Except.ok (cwArg.getD 0, chArg.getD 0)
    else Except.error cardSizeErrorMsg

/-- The five scale factors tried for every template (line 182). -/
def scales : List ℚ := [4/5, 9/10, 1, 11/10, 6/5]

/-- One iteration of the scale loop (lines 182-206): a `none` attempt
covers the guard `continue`s and the `except: continue`; a `some (c, e)`
attempt carries the colour and edge scores returned by
`cv2.matchTemplate` (the edge score is 0 when the template has no
edges).  Each best value is raised independently. -/
def scanStep (f : ℚ → Option (ℚ × ℚ)) (best : ℚ × ℚ) (s : ℚ) : ℚ × ℚ :=
  match f s with
  | none => best
  | some ce =>
    ((if ce.1 > best.1 then ce.1 else best.1),
     (if ce.2 > best.2 then ce.2 else best.2))

/-- Values of `best_color` and `best_edge` after the scale loop, both
starting at 0.0 (lines 179-180). -/
def scanScales (f : ℚ → Option (ℚ × ℚ)) : ℚ × ℚ :=
  scales.foldl (scanStep f) (0, 0)

/-- The acceptance test at line 209: both the best colour score and the
best edge score must reach their thresholds. -/
def acceptTemplate (f : ℚ → Option (ℚ × ℚ)) (t te : ℚ) : Bool :=
  let best := scanScales f
  t ≤ best.1 && te ≤ best.2

/-- The raw `matches` list built by the template loop (lines 176-214):
one entry per accepted template, in template order. -/
def templateMatches (tpls : List Template)
    (score : Nat → ℚ → Option (ℚ × ℚ)) (t te : ℚ) : List TplMatch :=
  tpls.enum.filterMap fun itpl =>
    if acceptTemplate (score itpl.1) t te then
      let best := scanScales (score itpl.1)
      some { name := itpl.2.name, glyph := itpl.2.glyph,
             token := itpl.2.token, score := best.1, edge_score := best.2 }
    else none

/-- Python or on optional strings: `None` and the empty string are
falsy. -/
def pyOrS (a b : Option String) : Option String :=
  match a with
  | some s => if s.isEmpty then b else some s
  | none => b

/-- The deduplication key at line 219:
`m.get("name") or m.get("token") or m.get("glyph") or m.get("name")`. -/
def matchKey (m : TplMatch) : Option String :=
  pyOrS m.name (pyOrS m.token (pyOrS m.glyph m.name))

/-- In-place dict update `uniq[n] = m` keeping the key's position and
only replacing when the new score is higher (line 220). -/
def upsert : List (Option String × TplMatch) → Option String → TplMatch →
    List (Option String × TplMatch)
  | [], n, m => [(n, m)]
  | (k, v) :: rest, n, m =>
    if k = n then
      (if m.score > v.score then (k, m) else (k, v)) :: rest
    else (k, v) :: upsert rest n m

/-- Stable insertion keeping descending score order: a new element goes
after every existing element whose score is at least as large. -/
def insertDesc (m : TplMatch) : List TplMatch → List TplMatch
  | [] => [m]
  | x :: xs => if m.score > x.score then m :: x :: xs else x :: insertDesc m xs

/-- Python's stable `sorted(..., key=score, reverse=True)` (line 222). -/
def sortByScoreDesc (ms : List TplMatch) : List TplMatch :=
  ms.foldl (fun acc m => insertDesc m acc) []

/-- Deduplicate matches by key keeping the highest score, then sort by
score descending (lines 216-222). -/
def dedupMatches (ms : List TplMatch) : List TplMatch :=
  sortByScoreDesc ((ms.foldl (fun acc m => upsert acc (matchKey m) m) []).map
    (fun kv => kv.2))

/-- Whitespace set of Python `str.strip()` (ASCII part). -/
def isPySpace (c : Char) : Bool :=
  c = ' ' || c = '\t' || c = '\n' || c = '\r' || c = '\x0b' || c = '\x0c'

/-- Python `str.strip()`. -/
def pyStrip (s : String) : String :=
  String.mk (((s.toList.dropWhile isPySpace).reverse.dropWhile isPySpace).reverse)

/-- Model of `re.sub` dropping control characters (line 235). -/
def stripControl (s : String) : String :=
  String.mk (s.toList.filter fun c => !(c.toNat ≤ 0x1F || c.toNat = 0x7F))

/-- Count of ASCII alphanumeric characters, the `alnum_count` of
line 237. -/
def alnumCount (s : String) : Nat :=
  (s.toList.filter fun c =>
    (('A' ≤ c ∧ c ≤ 'Z') ∨ ('a' ≤ c ∧ c ≤ 'z') ∨ ('0' ≤ c ∧ c ≤ '9'))).length

/-- The glyph merged for a match: `m.get("glyph") or m.get("token") or
m.get("name")` (line 227). -/
def glyphOf (m : TplMatch) : Option String :=
  pyOrS m.glyph (pyOrS m.token m.name)

/-- The comprehension at line 230: keep truthy, unseen glyphs in order. -/
def dedupeTruthyAux : List String → List (Option String) → List String
  | _, [] => []
  | seen, g :: rest =>
    match g with
    | none => dedupeTruthyAux seen rest
    | some s =>
      if s.isEmpty || seen.contains s then dedupeTruthyAux seen rest
      else s :: dedupeTruthyAux (s :: seen) rest

def dedupeTruthy (gs : List (Option String)) : List String :=
  dedupeTruthyAux [] gs

/-- The separator of the glyph join at line 231. -/
def spaceSep : String := " "

/-- Merge OCR text with detected-symbol glyphs (lines 224-244).
`text` is the OCR result (`none` when OCR was skipped or raised);
`matches` is the deduplicated, sorted match list. -/
def mergeText (text : Option String) (ms : List TplMatch) : String :=
  let merged := match text with
    | some t => pyStrip t
    | none => ""
  if ms.isEmpty then merged
  else
    let glyphs := dedupeTruthy (ms.map glyphOf)
    let glyphsStr := String.intercalate spaceSep glyphs
    let cleaned := stripControl merged
    let alnum := alnumCount cleaned
    if alnum < 2 ∧ pyStrip cleaned = "" then glyphsStr
    else if alnum < 2 ∧ cleaned.length ≤ 3 then glyphsStr
    else if glyphsStr.isEmpty then cleaned
    else pyStrip (cleaned ++ " " ++ glyphsStr)

/-- Region display name, `r.get("name") or` the default (line 152). -/
def pyRegionName (i : Nat) (r : Region) : String :=
  match r.name with
  | some n => if n.isEmpty then "region" ++ toString i else n
  | none => "region" ++ toString i

/-- Build one region entry (lines 144-158 and 247-257): the absolute
coordinates are the cell offset plus the region's own offset. -/
def buildRegionEntry (card_w card_h cols : Int) (k i : Nat) (r : Region)
    (text : Option String) (ms : List TplMatch) : RegionEntry :=
  let col := (k : Int).fmod cols
  let row := (k : Int).fdiv cols
  { region_index := i,
    name := pyRegionName i r,
    x := r.x,
    y := r.y,
    w := r.width,
    h := r.height,
    x_abs := col * card_w + r.x,
    y_abs := row * card_h + r.y,
    text := mergeText text ms }

/-- Effective OCR switch (lines 103-105): OCR runs only when requested
and pytesseract imported. -/
def effDoOcr (cfg : RunConfig) (libs : Libs) : Bool :=
  cfg.do_ocr && libs.hasPytesseract

/-- Effective template list (lines 109-130): templates are only loaded
when both symbol paths were given and OpenCV imported. -/
def effectiveTemplates (cfg : RunConfig) (libs : Libs)
    (tplsLoaded : List Template) : List Template :=
  if cfg.symbolsRequested && libs.hasCv2 then tplsLoaded else []

/-- The OCR text fed into a region's entry: the oracle's result when
OCR is effectively on (`none` models a caught OCR exception), `None`
otherwise (lines 163-169). -/
def regionTextInput (cfg : RunConfig) (libs : Libs)
    (o : Nat → Nat → Option String) (k i : Nat) : Option String :=
  if effDoOcr cfg libs then o k i else none

/-- The deduplicated, sorted match list of card `k`, region `i`
(lines 172-222); empty when `templates and HAS_CV2` is falsy. -/
def regionMatches (cfg : RunConfig) (libs : Libs)
    (tplsLoaded : List Template)
    (p : Nat → Nat → Nat → ℚ → Option (ℚ × ℚ)) (k i : Nat) :
    List TplMatch :=
  let templates := effectiveTemplates cfg libs tplsLoaded
  if !templates.isEmpty && libs.hasCv2 then
    dedupMatches (templateMatches templates (p k i)
      cfg.symbol_threshold cfg.symbol_edge_threshold)
  else []

def ocrFailMsg (k i : Nat) (name : String) : String :=
  "OCR failed for card " ++ toString k ++ " region " ++ toString i ++
    " (" ++ name ++ ")"

def pytesseractWarning : String :=
  "pytesseract not available; skipping OCR. Install via `pip install pytesseract` and ensure Tesseract binary is on PATH."

def cv2Warning : String :=
  "OpenCV not available; skipping symbol detection. Install via `pip install opencv-python`"

/-- One card's entry in the summary (lines 144-258). -/
def cardFor (cfg : RunConfig) (libs : Libs) (card_w card_h cols : Int)
    (regions : List Region) (tplsLoaded : List Template)
    (o : Nat → Nat → Option String)
    (p : Nat → Nat → Nat → ℚ → Option (ℚ × ℚ)) (k : Nat) : CardEntry :=
  { card_index := k,
    col := (k : Int).fmod cols,
    row := (k : Int).fdiv cols,
    regions := regions.enum.map fun ir =>
      buildRegionEntry card_w card_h cols k ir.1 ir.2
        (regionTextInput cfg libs o k ir.1)
        (regionMatches cfg libs tplsLoaded p k ir.1) }

/-- The summary and console warnings produced once the geometry checks
passed (lines 103-277).  The warning list records the two
missing-library warnings followed by the per-region OCR-failure
messages, in the order the script prints them. -/
def runSummary (cfg : RunConfig) (libs : Libs) (card_w card_h : Int)
    (regions : List Region) (tplsLoaded : List Template)
    (o : Nat → Nat → Option String)
    (p : Nat → Nat → Nat → ℚ → Option (ℚ × ℚ)) :
    Summary × List String :=
  let cols := cfg.atlas_w.fdiv card_w
  let rows := cfg.atlas_h.fdiv card_h
  let total := (cols * rows).toNat
  let cards := (List.range total).map
    (cardFor cfg libs card_w card_h cols regions tplsLoaded o p)
  let ocrLog := ((List.range total).map fun k =>
    regions.enum.filterMap fun ir =>
      if effDoOcr cfg libs = true ∧ o k ir.1 = none then
        some (ocrFailMsg k ir.1 (pyRegionName ir.1 ir.2))
      else none).flatten
  let warnings :=
    (if cfg.do_ocr && !libs.hasPytesseract then [pytesseractWarning] else []) ++
    (if cfg.symbolsRequested && !libs.hasCv2 then [cv2Warning] else []) ++
    ocrLog
  ({ atlas_size := (cfg.atlas_w, cfg.atlas_h),
     card_size := (card_w, card_h),
     cols := cols,
     rows := rows,
     cards := cards }, warnings)

/-- Model of `process_atlas` (lines 85-277).  Returns the summary document and
console warnings, or the message of the exception that aborted the
run.  A zero card dimension aborts Python with `ZeroDivisionError`
before the grid check, modelled by the explicit zero test. -/
def processAtlas (cfg : RunConfig) (libs : Libs)
    (image_size : Option (Int × Int)) (regions : List Region)
    (tplsLoaded : List Template) (o : Nat → Nat → Option String)
    (p : Nat → Nat → Nat → ℚ → Option (ℚ × ℚ)) :
    Except String (Summary × List String) :=
  match determineCardSize image_size cfg.card_w_arg cfg.card_h_arg with
  | Except.error e => Except.error e
  | Except.ok (card_w, card_h) =>
    if card_w = 0 ∨ card_h = 0 then Except.error zeroDivisionMsg
    else if cfg.atlas_w.fdiv card_w ≤ 0 ∨ cfg.atlas_h.fdiv card_h ≤ 0 then
      Except.error (gridErrorMsg card_w card_h cfg.atlas_w cfg.atlas_h)
    else Except.ok (runSummary cfg libs card_w card_h regions tplsLoaded o p)

/-- The region entry of card `k`, region `i` in a summary. -/
def entryAt (s : Summary) (k i : Nat) : Option RegionEntry :=
  (s.cards.get? k).bind fun c => c.regions.get? i

/-- The geometry preconditions under which `process_atlas` reaches the
card loop: a card size is determined, neither dimension is zero, and
the grid is non-empty. -/
def geometryOk (cfg : RunConfig) (image_size : Option (Int × Int))
    (cw chh : Int) : Prop :=
  determineCardSize image_size cfg.card_w_arg cfg.card_h_arg =
      Except.ok (cw, chh) ∧
    ¬(cw = 0 ∨ chh = 0) ∧
    ¬(cfg.atlas_w.fdiv cw ≤ 0 ∨ cfg.atlas_h.fdiv chh ≤ 0)

/-- The data-model invariant stated by the spec: a region's coordinates
fit within one card's bounds. -/
def specFitsCard (e : RegionEntry) (cw chh : Int) : Bool :=
  (0 ≤ e.x) && (0 ≤ e.y) && (e.x + e.w ≤ cw) && (e.y + e.h ≤ chh)

/- Concrete inputs used by witnesses and counterexamples. -/

def libsNone : Libs := { hasPytesseract := false, hasCv2 := false }

def libsAll : Libs := { hasPytesseract := true, hasCv2 := true }

def oNone : Nat → Nat → Option String := fun _ _ => none

def pNone : Nat → Nat → Nat → ℚ → Option (ℚ × ℚ) := fun _ _ _ _ => none

def axeStr : String := "axe"

def glyphAxe : String := "⚔"

def titleStr : String := "title"

def attackText : String := "Attack 3\n"

def mergedC3 : String := "Attack 3 ⚔"

def bigStr : String := "big"

def cfgC3 : RunConfig :=
  { atlas_w := 100, atlas_h := 100, do_ocr := true, card_w_arg := none,
    card_h_arg := none, symbolsRequested := true,
    symbol_threshold := 1, symbol_edge_threshold := 1 }

def tplAxe : Template :=
  { name := some axeStr, glyph := some glyphAxe, token := none }

def titleRegion : Region :=
  { name := some titleStr, x := 3, y := 4, width := 20, height := 10 }

def regionsC3 : List Region := [titleRegion]

def oC3 : Nat → Nat → Option String := fun _ _ => some attackText

def pC3 : Nat → Nat → Nat → ℚ → Option (ℚ × ℚ) := fun _ _ _ _ => some (2, 1)

def runC3 : Summary × List String :=
  runSummary cfgC3 libsAll 100 100 regionsC3 [tplAxe] oC3 pC3

def entryC3 : Option RegionEntry := entryAt runC3.1 0 0

def cfgC9 : RunConfig :=
  { atlas_w := 100, atlas_h := 100, do_ocr := false, card_w_arg := none,
    card_h_arg := none, symbolsRequested := false,
    symbol_threshold := 1, symbol_edge_threshold := 1 }

def bigRegion : Region :=
  { name := some bigStr, x := 90, y := 0, width := 50, height := 10 }

def regionsC9 : List Region := [bigRegion]

def runC9 : Summary × List String :=
  runSummary cfgC9 libsNone 100 100 regionsC9 [] oNone pNone

def entryC9 : Option RegionEntry := entryAt runC9.1 0 0

def cfgW7 : RunConfig :=
  { atlas_w := 4, atlas_h := 2, do_ocr := true, card_w_arg := none,
    card_h_arg := none, symbolsRequested := true,
    symbol_threshold := 1, symbol_edge_threshold := 1 }

def fC6 : ℚ → Option (ℚ × ℚ) := fun _ => some (2, 1)

def cfgC8 : RunConfig :=
  { atlas_w := 100, atlas_h := 100, do_ocr := false, card_w_arg := none,
    card_h_arg := none, symbolsRequested := true,
    symbol_threshold := 1, symbol_edge_threshold := 1 }

def runC8 : Summary × List String :=
  runSummary cfgC8 libsAll 100 100 regionsC3 [tplAxe] oNone pNone

def jsonBadEx : Json := Json.num 5

/-! ## Helper lemmas -/

theorem processAtlas_ok (cfg : RunConfig) (libs : Libs)
    (isz : Option (Int × Int)) (regions : List Region)
    (tpls : List Template) (o : Nat → Nat → Option String)
    (p : Nat → Nat → Nat → ℚ → Option (ℚ × ℚ)) (cw chh : Int)
    (hg : geometryOk cfg isz cw chh) :
    processAtlas cfg libs isz regions tpls o p =
      Except.ok (runSummary cfg libs cw chh regions tpls o p) := by
  obtain ⟨h1, h2, h3⟩ := hg
  unfold processAtlas
  rw [h1]
  simp [h2, h3]

theorem runSummary_cards_length (cfg : RunConfig) (libs : Libs)
    (cw chh : Int) (regions : List Region) (tpls : List Template)
    (o : Nat → Nat → Option String)
    (p : Nat → Nat → Nat → ℚ → Option (ℚ × ℚ)) :
    (runSummary cfg libs cw chh regions tpls o p).1.cards.length =
      ((cfg.atlas_w.fdiv cw) * (cfg.atlas_h.fdiv chh)).toNat := by
  simp [runSummary]

theorem entryAt_runSummary (cfg : RunConfig) (libs : Libs)
    (cw chh : Int) (regions : List Region) (tpls : List Template)
    (o : Nat → Nat → Option String)
    (p : Nat → Nat → Nat → ℚ → Option (ℚ × ℚ)) (k i : Nat) :
    entryAt (runSummary cfg libs cw chh regions tpls o p).1 k i =
      if k < ((cfg.atlas_w.fdiv cw) * (cfg.atlas_h.fdiv chh)).toNat then
        (regions.get? i).map (fun r =>
          buildRegionEntry cw chh (cfg.atlas_w.fdiv cw) k i r
            (regionTextInput cfg libs o k i)
            (regionMatches cfg libs tpls p k i))
      else none := by
  unfold entryAt runSummary
  simp only []
  rw [List.get?_map]
  by_cases hk : k < ((cfg.atlas_w.fdiv cw) * (cfg.atlas_h.fdiv chh)).toNat
  · rw [List.get?_range hk, if_pos hk]
    unfold cardFor
    simp only [Option.map_some', Option.some_bind]
    rw [List.get?_map, List.get?_enum]
    cases hr : regions.get? i <;> simp
  · rw [if_neg hk]
    have hlen : ((List.range (((cfg.atlas_w.fdiv cw) * (cfg.atlas_h.fdiv chh)).toNat))).get? k = none := by
      rw [List.get?_eq_none]
      simpa [List.length_range] using Nat.le_of_not_lt hk
    rw [hlen]
    rfl

theorem scanStep_none (f : ℚ → Option (ℚ × ℚ)) (b : ℚ × ℚ) (a : ℚ)
    (h : f a = none) : scanStep f b a = b := by
  simp [scanStep, h]

theorem scanStep_some (f : ℚ → Option (ℚ × ℚ)) (b : ℚ × ℚ) (a : ℚ)
    (c e : ℚ) (h : f a = some (c, e)) :
    scanStep f b a =
      ((if c > b.1 then c else b.1), (if e > b.2 then e else b.2)) := by
  simp [scanStep, h]

theorem le_if_max (t b c : ℚ) :
    (t ≤ if c > b then c else b) ↔ t ≤ b ∨ t ≤ c := by
  by_cases h : c > b
  · rw [if_pos h]
    constructor
    · intro h1
      exact Or.inr h1
    · rintro (h1 | h1)
      · linarith
      · exact h1
  · rw [if_neg h]
    push_neg at h
    constructor
    · intro h1
      exact Or.inl h1
    · rintro (h1 | h1)
      · exact h1
      · linarith

theorem scanFold_fst (f : ℚ → Option (ℚ × ℚ)) (t : ℚ) (l : List ℚ) :
    ∀ b : ℚ × ℚ, (t ≤ (l.foldl (scanStep f) b).1 ↔
      t ≤ b.1 ∨ ∃ s ∈ l, ∃ c e, f s = some (c, e) ∧ t ≤ c) := by
  induction l with
  | nil =>
    intro b
    simp
  | cons a l ih =>
    intro b
    rw [List.foldl_cons, ih]
    cases hfa : f a with
    | none =>
      rw [scanStep_none f b a hfa]
      constructor
      · rintro (hb | ⟨s, hs, rest⟩)
        · exact Or.inl hb
        · exact Or.inr ⟨s, List.mem_cons_of_mem a hs, rest⟩
      · rintro (hb | ⟨s, hs, c, e, hfs, htc⟩)
        · exact Or.inl hb
        · rcases List.mem_cons.mp hs with rfl | hs'
          · rw [hfa] at hfs
            exact absurd hfs (by simp)
          · exact Or.inr ⟨s, hs', c, e, hfs, htc⟩
    | some ce =>
      obtain ⟨c, e⟩ := ce
      rw [scanStep_some f b a c e hfa]
      rw [le_if_max]
      constructor
      · rintro ((hb | hc) | ⟨s, hs, rest⟩)
        · exact Or.inl hb
        · exact Or.inr ⟨a, List.mem_cons_self a l, c, e, hfa, hc⟩
        · exact Or.inr ⟨s, List.mem_cons_of_mem a hs, rest⟩
      · rintro (hb | ⟨s, hs, c', e', hfs, htc⟩)
        · exact Or.inl (Or.inl hb)
        · rcases List.mem_cons.mp hs with rfl | hs'
          · rw [hfa] at hfs
            simp only [Option.some.injEq, Prod.mk.injEq] at hfs
            obtain ⟨rfl, rfl⟩ := hfs
            exact Or.inl (Or.inr htc)
          · exact Or.inr ⟨s, hs', c', e', hfs, htc⟩

theorem scanFold_snd (f : ℚ → Option (ℚ × ℚ)) (t : ℚ) (l : List ℚ) :
    ∀ b : ℚ × ℚ, (t ≤ (l.foldl (scanStep f) b).2 ↔
      t ≤ b.2 ∨ ∃ s ∈ l, ∃ c e, f s = some (c, e) ∧ t ≤ e) := by
  induction l with
  | nil =>
    intro b
    simp
  | cons a l ih =>
    intro b
    rw [List.foldl_cons, ih]
    cases hfa : f a with
    | none =>
      rw [scanStep_none f b a hfa]
      constructor
      · rintro (hb | ⟨s, hs, rest⟩)
        · exact Or.inl hb
        · exact Or.inr ⟨s, List.mem_cons_of_mem a hs, rest⟩
      · rintro (hb | ⟨s, hs, c, e, hfs, hte⟩)
        · exact Or.inl hb
        · rcases List.mem_cons.mp hs with rfl | hs'
          · rw [hfa] at hfs
            exact absurd hfs (by simp)
          · exact Or.inr ⟨s, hs', c, e, hfs, hte⟩
    | some ce =>
      obtain ⟨c, e⟩ := ce
      rw [scanStep_some f b a c e hfa]
      rw [le_if_max]
      constructor
      · rintro ((hb | he) | ⟨s, hs, rest⟩)
        · exact Or.inl hb
        · exact Or.inr ⟨a, List.mem_cons_self a l, c, e, hfa, he⟩
        · exact Or.inr ⟨s, List.mem_cons_of_mem a hs, rest⟩
      · rintro (hb | ⟨s, hs, c', e', hfs, hte⟩)
        · exact Or.inl (Or.inl hb)
        · rcases List.mem_cons.mp hs with rfl | hs'
          · rw [hfa] at hfs
            simp only [Option.some.injEq, Prod.mk.injEq] at hfs
            obtain ⟨rfl, rfl⟩ := hfs
            exact Or.inl (Or.inr hte)
          · exact Or.inr ⟨s, hs', c', e', hfs, hte⟩

/-! ## Claims -/

/-- C6: for every region, a template is reported as a detected symbol if
and only if both its best normalized cross-correlation score over the
tried scales (0.8, 0.9, 1.0, 1.1, 1.2) is at least `symbol_threshold`
and its best edge-image match score is at least
`symbol_edge_threshold`, for positive thresholds (the script's best
scores start at 0.0, so thresholds at or below zero would always
pass). -/
theorem c6_symbol_detection_iff (f : ℚ → Option (ℚ × ℚ)) (t te : ℚ)
    (ht : 0 < t) (hte : 0 < te) :
    acceptTemplate f t te = true ↔
      ((∃ s ∈ scales, ∃ c e, f s = some (c, e) ∧ t ≤ c) ∧
       (∃ s ∈ scales, ∃ c e, f s = some (c, e) ∧ te ≤ e)) := by
  have hacc : acceptTemplate f t te = true ↔
      (t ≤ (scanScales f).1 ∧ te ≤ (scanScales f).2) := by
    simp [acceptTemplate]
  rw [hacc]
  unfold scanScales
  rw [scanFold_fst f t scales (0, 0), scanFold_snd f te scales (0, 0)]
  simp [not_le.mpr ht, not_le.mpr hte]

/-- Witness for C6: a template whose colour score is 2 and edge score 1
at every scale is accepted at thresholds 1 and 1. -/
theorem c6_witness :
    acceptTemplate fC6 1 1 = true ∧
    ((∃ s ∈ scales, ∃ c e, fC6 s = some (c, e) ∧ (1 : ℚ) ≤ c) ∧
     (∃ s ∈ scales, ∃ c e, fC6 s = some (c, e) ∧ (1 : ℚ) ≤ e)) :=
  ⟨by decide,
   (c6_symbol_detection_iff fC6 1 1 (by norm_num) (by norm_num)).mp
     (by decide)⟩

/-- C4: `load_regions` accepts exactly two input shapes, a JSON object
containing a `regions` list and a plain JSON list, and errors on any
other JSON value or on text that fails to parse as JSON. -/
theorem c4_load_regions_shapes (input : Option Json) :
    ((∃ out, loadRegions input = Except.ok out) ↔
      (∃ j, input = some j ∧ specAcceptedShape j)) ∧
    (∀ j, input = some j → ¬specAcceptedShape j →
      loadRegions input = Except.error unrecognizedMsg) ∧
    (input = none → loadRegions input = Except.error parseErrorMsg) := by
  refine ⟨?_, ?_, ?_⟩
  · cases input with
    | none => simp [loadRegions]
    | some j =>
      cases j with
      | null => simp [loadRegions, specAcceptedShape]
      | bool b => simp [loadRegions, specAcceptedShape]
      | num n => simp [loadRegions, specAcceptedShape]
      | str s => simp [loadRegions, specAcceptedShape]
      | arr rs => simp [loadRegions, specAcceptedShape]
      | obj fields =>
        cases hreg : fields.lookup regionsKey with
        | none => simp [loadRegions, hreg, specAcceptedShape]
        | some v =>
          cases v with
          | null => simp [loadRegions, hreg, specAcceptedShape]
          | bool b => simp [loadRegions, hreg, specAcceptedShape]
          | num n => simp [loadRegions, hreg, specAcceptedShape]
          | str s => simp [loadRegions, hreg, specAcceptedShape]
          | arr rs => simp [loadRegions, hreg, specAcceptedShape]
          | obj f2 => simp [loadRegions, hreg, specAcceptedShape]
  · intro j hj hshape
    subst hj
    cases j with
    | null => simp [loadRegions]
    | bool b => simp [loadRegions]
    | num n => simp [loadRegions]
    | str s => simp [loadRegions]
    | arr rs => exact absurd (Or.inr ⟨rs, rfl⟩) hshape
    | obj fields =>
      cases hreg : fields.lookup regionsKey with
      | none => simp [loadRegions, hreg]
      | some v =>
        cases v with
        | null => simp [loadRegions, hreg]
        | bool b => simp [loadRegions, hreg]
        | num n => simp [loadRegions, hreg]
        | str s => simp [loadRegions, hreg]
        | arr rs => exact absurd (Or.inl ⟨fields, rfl, rs, hreg⟩) hshape
        | obj f2 => simp [loadRegions, hreg]
  · intro h
    subst h
    rfl

/-- Witness for C4: a bare JSON number is rejected with the script's
"Unrecognized regions JSON format" error. -/
theorem c4_witness :
    loadRegions (some jsonBadEx) = Except.error unrecognizedMsg :=
  (c4_load_regions_shapes (some jsonBadEx)).2.1 jsonBadEx rfl
    (by rintro (⟨fs, h, -⟩ | ⟨rs, h⟩) <;> exact Json.noConfusion h)

/-- C5: an `image_size` from the regions JSON makes the CLI card
dimensions unnecessary, and without it `process_atlas` raises the
fatal card-size error before processing any card whenever the two CLI
dimensions are not both supplied. -/
theorem c5_card_size_requirement :
    (∀ (sz : Int × Int) (a b : Option Int),
      determineCardSize (some sz) a b = Except.ok sz) ∧
    (∀ (cfg : RunConfig) (libs : Libs) (regions : List Region)
       (tpls : List Template) (o : Nat → Nat → Option String)
       (p : Nat → Nat → Nat → ℚ → Option (ℚ × ℚ)),
      (cfg.card_w_arg = none ∨ cfg.card_h_arg = none) →
      processAtlas cfg libs none regions tpls o p =
        Except.error cardSizeErrorMsg) := by
  constructor
  · intro sz a b
    rfl
  · intro cfg libs regions tpls o p h
    have hdet : determineCardSize none cfg.card_w_arg cfg.card_h_arg =
        Except.error cardSizeErrorMsg := by
      unfold determineCardSize
      rcases h with h | h <;> rw [h] <;> simp [pyTruthy]
    unfold processAtlas
    rw [hdet]

/-- Witness for C5: with `image_size` (2, 1) and no CLI dimensions the
card size is (2, 1); without either, the run aborts with the card-size
error. -/
theorem c5_witness :
    determineCardSize (some (2, 1)) none none = Except.ok (2, 1) ∧
    processAtlas cfgC9 libsNone none regionsC9 [] oNone pNone =
      Except.error cardSizeErrorMsg :=
  ⟨c5_card_size_requirement.1 (2, 1) none none,
   c5_card_size_requirement.2 cfgC9 libsNone regionsC9 [] oNone pNone
     (Or.inl rfl)⟩

/-- C10: when the regions JSON supplies an `image_size`, the CLI card
dimensions are ignored: two runs that differ only in `--card-width`
and `--card-height` produce the identical result. -/
theorem c10_image_size_overrides_cli (cfg : RunConfig)
    (a1 b1 a2 b2 : Option Int) (libs : Libs) (sz : Int × Int)
    (regions : List Region) (tpls : List Template)
    (o : Nat → Nat → Option String)
    (p : Nat → Nat → Nat → ℚ → Option (ℚ × ℚ)) :
    processAtlas { cfg with card_w_arg := a1, card_h_arg := b1 } libs
        (some sz) regions tpls o p =
      processAtlas { cfg with card_w_arg := a2, card_h_arg := b2 } libs
        (some sz) regions tpls o p := rfl

theorem regionTextInput_congr (cfg : RunConfig) (libs : Libs)
    (o1 o2 : Nat → Nat → Option String) (k i : Nat)
    (h : o1 k i = o2 k i) :
    regionTextInput cfg libs o1 k i = regionTextInput cfg libs o2 k i := by
  unfold regionTextInput
  rw [h]

theorem regionMatches_congr (cfg : RunConfig) (libs : Libs)
    (tpls : List Template)
    (p1 p2 : Nat → Nat → Nat → ℚ → Option (ℚ × ℚ)) (k i : Nat)
    (h : p1 k i = p2 k i) :
    regionMatches cfg libs tpls p1 k i = regionMatches cfg libs tpls p2 k i := by
  unfold regionMatches
  rw [h]

/-- C1: `process_atlas` computes the grid deterministically by integer
division, `cols = atlas_w // card_w` and `rows = atlas_h // card_h`, so
the same atlas and card sizes always yield the same grid and summary. -/
theorem c1_grid_division (cfg : RunConfig) (libs : Libs)
    (isz : Option (Int × Int)) (regions : List Region)
    (tpls : List Template) (o : Nat → Nat → Option String)
    (p : Nat → Nat → Nat → ℚ → Option (ℚ × ℚ)) (cw chh : Int)
    (hg : geometryOk cfg isz cw chh) (s : Summary) (l : List String)
    (hrun : processAtlas cfg libs isz regions tpls o p = Except.ok (s, l)) :
    s.cols = cfg.atlas_w.fdiv cw ∧ s.rows = cfg.atlas_h.fdiv chh ∧
    s.card_size = (cw, chh) ∧
    (∀ s2 l2, processAtlas cfg libs isz regions tpls o p = Except.ok (s2, l2) →
      s2 = s ∧ l2 = l) := by
  have hok := processAtlas_ok cfg libs isz regions tpls o p cw chh hg
  rw [hok] at hrun
  have hs : runSummary cfg libs cw chh regions tpls o p = (s, l) := by
    injection hrun
  have hs1 : s = (runSummary cfg libs cw chh regions tpls o p).1 := by rw [hs]
  have hs2 : l = (runSummary cfg libs cw chh regions tpls o p).2 := by rw [hs]
  subst hs1
  subst hs2
  refine ⟨rfl, rfl, rfl, ?_⟩
  intro s2 l2 h2
  rw [hok] at h2
  have h2' : runSummary cfg libs cw chh regions tpls o p = (s2, l2) := by
    injection h2
  rw [h2']
  exact ⟨rfl, rfl⟩

/-- Witness for C1: a 100x100 atlas with card size 100x100 yields a
1x1 grid computed by floor division. -/
theorem c1_witness :
    runC9.1.cols = Int.fdiv 100 100 ∧ runC9.1.rows = Int.fdiv 100 100 ∧
    runC9.1.card_size = (100, 100) :=
  have h := c1_grid_division cfgC9 libsNone (some (100, 100)) regionsC9 []
    oNone pNone 100 100 ⟨rfl, by decide, by decide⟩ runC9.1 runC9.2
    (processAtlas_ok cfgC9 libsNone (some (100, 100)) regionsC9 [] oNone pNone
      100 100 ⟨rfl, by decide, by decide⟩)
  ⟨h.1, h.2.1, h.2.2.1⟩

/-- C2: for every card index `k` and region `r`, the absolute
coordinates in the summary equal the cell offset plus the region's own
offset: `x_abs = (k mod cols) * card_w + r.x` and
`y_abs = (k div cols) * card_h + r.y`. -/
theorem c2_absolute_coordinates (cfg : RunConfig) (libs : Libs)
    (isz : Option (Int × Int)) (regions : List Region)
    (tpls : List Template) (o : Nat → Nat → Option String)
    (p : Nat → Nat → Nat → ℚ → Option (ℚ × ℚ)) (cw chh : Int)
    (hg : geometryOk cfg isz cw chh) (s : Summary) (l : List String)
    (hrun : processAtlas cfg libs isz regions tpls o p = Except.ok (s, l))
    (k i : Nat) (r : Region) (hk : k < s.cards.length)
    (hi : regions.get? i = some r) :
    (entryAt s k i).map RegionEntry.x_abs =
      some (((k : Int).fmod s.cols) * cw + r.x) ∧
    (entryAt s k i).map RegionEntry.y_abs =
      some (((k : Int).fdiv s.cols) * chh + r.y) := by
  have hok := processAtlas_ok cfg libs isz regions tpls o p cw chh hg
  rw [hok] at hrun
  have hs : runSummary cfg libs cw chh regions tpls o p = (s, l) := by
    injection hrun
  have hs1 : s = (runSummary cfg libs cw chh regions tpls o p).1 := by rw [hs]
  subst hs1
  rw [runSummary_cards_length] at hk
  rw [entryAt_runSummary cfg libs cw chh regions tpls o p k i, if_pos hk, hi]
  exact ⟨rfl, rfl⟩

/-- Witness for C2: in the 1x1-grid run, region (90, 0) of card 0 gets
absolute coordinates (0 mod 1) * 100 + 90 and (0 div 1) * 100 + 0. -/
theorem c2_witness :
    (entryAt runC9.1 0 0).map RegionEntry.x_abs =
      some (((0 : Int).fmod runC9.1.cols) * 100 + bigRegion.x) ∧
    (entryAt runC9.1 0 0).map RegionEntry.y_abs =
      some (((0 : Int).fdiv runC9.1.cols) * 100 + bigRegion.y) :=
  c2_absolute_coordinates cfgC9 libsNone (some (100, 100)) regionsC9 []
    oNone pNone 100 100 ⟨rfl, by decide, by decide⟩ runC9.1 runC9.2
    (processAtlas_ok cfgC9 libsNone (some (100, 100)) regionsC9 [] oNone pNone
      100 100 ⟨rfl, by decide, by decide⟩)
    0 0 bigRegion (by decide) rfl

/-- C3 counterexample: in a run where the template named "axe" with
glyph "⚔" is detected, the region's summary entry consists solely of
the fields below; the symbol's *name* appears in none of them — the
merged text carries the glyph instead — so the entry does not
aggregate the names of the detected symbols. -/
theorem c3_counterexample :
    processAtlas cfgC3 libsAll (some (100, 100)) regionsC3 [tplAxe] oC3 pC3 =
      Except.ok runC3 ∧
    (regionMatches cfgC3 libsAll [tplAxe] pC3 0 0).map TplMatch.name =
      [some axeStr] ∧
    entryC3 = some { region_index := 0, name := titleStr, x := 3, y := 4,
                     w := 20, h := 10, x_abs := 3, y_abs := 4,
                     text := mergedC3 } ∧
    ¬ (axeStr.toList <:+: mergedC3.toList) := by
  refine ⟨processAtlas_ok cfgC3 libsAll (some (100, 100)) regionsC3 [tplAxe]
    oC3 pC3 100 100 ⟨rfl, by decide, by decide⟩, ?_, ?_, ?_⟩
  · rfl
  · rfl
  · decide

/-- C3 amended: each region's entry aggregates the region's coordinates
and a text field in which the detected symbols are merged as glyphs
(falling back to token, then name); there is no separate list of
symbol names. -/
theorem c3_entry_aggregation_amended (cfg : RunConfig) (libs : Libs)
    (isz : Option (Int × Int)) (regions : List Region)
    (tpls : List Template) (o : Nat → Nat → Option String)
    (p : Nat → Nat → Nat → ℚ → Option (ℚ × ℚ)) (cw chh : Int)
    (hg : geometryOk cfg isz cw chh) (s : Summary) (l : List String)
    (hrun : processAtlas cfg libs isz regions tpls o p = Except.ok (s, l))
    (k i : Nat) (r : Region) (hk : k < s.cards.length)
    (hi : regions.get? i = some r) :
    (entryAt s k i).map RegionEntry.x = some r.x ∧
    (entryAt s k i).map RegionEntry.y = some r.y ∧
    (entryAt s k i).map RegionEntry.w = some r.width ∧
    (entryAt s k i).map RegionEntry.h = some r.height ∧
    (entryAt s k i).map RegionEntry.text =
      some (mergeText (regionTextInput cfg libs o k i)
        (regionMatches cfg libs tpls p k i)) := by
  have hok := processAtlas_ok cfg libs isz regions tpls o p cw chh hg
  rw [hok] at hrun
  have hs : runSummary cfg libs cw chh regions tpls o p = (s, l) := by
    injection hrun
  have hs1 : s = (runSummary cfg libs cw chh regions tpls o p).1 := by rw [hs]
  subst hs1
  rw [runSummary_cards_length] at hk
  rw [entryAt_runSummary cfg libs cw chh regions tpls o p k i, if_pos hk, hi]
  exact ⟨rfl, rfl, rfl, rfl, rfl⟩

/-- Witness for the amended C3: the concrete detected-symbol run. -/
theorem c3_amended_witness :
    (entryAt runC3.1 0 0).map RegionEntry.x = some titleRegion.x ∧
    (entryAt runC3.1 0 0).map RegionEntry.text =
      some (mergeText (regionTextInput cfgC3 libsAll oC3 0 0)
        (regionMatches cfgC3 libsAll [tplAxe] pC3 0 0)) :=
  have h := c3_entry_aggregation_amended cfgC3 libsAll (some (100, 100))
    regionsC3 [tplAxe] oC3 pC3 100 100 ⟨rfl, by decide, by decide⟩
    runC3.1 runC3.2
    (processAtlas_ok cfgC3 libsAll (some (100, 100)) regionsC3 [tplAxe]
      oC3 pC3 100 100 ⟨rfl, by decide, by decide⟩)
    0 0 titleRegion (by decide) rfl
  ⟨h.1, h.2.2.2.2⟩

/-- C7: when a requested optional library is missing, the run still
completes with a summary, the corresponding console warning is
emitted, and the produced summary equals the one of a run with that
feature switched off. -/
theorem c7_missing_libraries_degrade (cfg : RunConfig) (libs : Libs)
    (isz : Option (Int × Int)) (regions : List Region)
    (tpls : List Template) (o : Nat → Nat → Option String)
    (p : Nat → Nat → Nat → ℚ → Option (ℚ × ℚ)) (cw chh : Int)
    (hg : geometryOk cfg isz cw chh) :
    processAtlas cfg libs isz regions tpls o p =
      Except.ok (runSummary cfg libs cw chh regions tpls o p) ∧
    (cfg.do_ocr = true → libs.hasPytesseract = false →
      pytesseractWarning ∈ (runSummary cfg libs cw chh regions tpls o p).2 ∧
      (runSummary cfg libs cw chh regions tpls o p).1 =
        (runSummary { cfg with do_ocr := false } libs cw chh regions
          tpls o p).1) ∧
    (cfg.symbolsRequested = true → libs.hasCv2 = false →
      cv2Warning ∈ (runSummary cfg libs cw chh regions tpls o p).2 ∧
      (runSummary cfg libs cw chh regions tpls o p).1 =
        (runSummary { cfg with symbolsRequested := false } libs cw chh regions
          tpls o p).1) := by
  refine ⟨processAtlas_ok cfg libs isz regions tpls o p cw chh hg, ?_, ?_⟩
  · intro h1 h2
    constructor
    · simp [runSummary, h1, h2]
    · have hcard : cardFor cfg libs cw chh (cfg.atlas_w.fdiv cw) regions
          tpls o p =
          cardFor { cfg with do_ocr := false } libs cw chh
            (cfg.atlas_w.fdiv cw) regions tpls o p := by
        funext k
        simp only [cardFor, regionTextInput, effDoOcr, h2, Bool.and_false,
          Bool.false_eq_true, if_false]
        rfl
      simp only [runSummary]
      rw [hcard]
  · intro h1 h2
    constructor
    · simp [runSummary, h1, h2]
    · have hcard : cardFor cfg libs cw chh (cfg.atlas_w.fdiv cw) regions
          tpls o p =
          cardFor { cfg with symbolsRequested := false } libs cw chh
            (cfg.atlas_w.fdiv cw) regions tpls o p := by
        funext k
        simp only [cardFor, regionMatches, effectiveTemplates, h2,
          Bool.and_false, Bool.false_eq_true, if_false]
        rfl
      simp only [runSummary]
      rw [hcard]

/-- Witness for C7: a run requesting OCR and symbol detection with both
libraries missing emits both warnings. -/
theorem c7_witness :
    pytesseractWarning ∈
      (runSummary cfgW7 libsNone 2 1 regionsC9 [tplAxe] oNone pNone).2 ∧
    cv2Warning ∈
      (runSummary cfgW7 libsNone 2 1 regionsC9 [tplAxe] oNone pNone).2 :=
  have h := c7_missing_libraries_degrade cfgW7 libsNone (some (2, 1))
    regionsC9 [tplAxe] oNone pNone 2 1 ⟨rfl, by decide, by decide⟩
  ⟨(h.2.1 rfl rfl).1, (h.2.2 rfl rfl).1⟩

/-- C8 amended: a caught per-region failure (OCR exception or failing
template-matching attempts, modelled by the oracles returning `none`
at one card/region) affects no other region's entry and the run still
produces the full grid of cards; an OCR failure is logged for its
region, while a failing template-matching attempt is caught silently —
the warning log does not depend on the matching oracle at all. -/
theorem c8_fault_isolation (cfg : RunConfig) (libs : Libs)
    (isz : Option (Int × Int)) (regions : List Region)
    (tpls : List Template) (o1 o2 : Nat → Nat → Option String)
    (p1 p2 : Nat → Nat → Nat → ℚ → Option (ℚ × ℚ)) (k0 i0 : Nat)
    (cw chh : Int) (r0 : Region) (hg : geometryOk cfg isz cw chh)
    (hag : ∀ k i, ¬(k = k0 ∧ i = i0) → o1 k i = o2 k i ∧ p1 k i = p2 k i)
    (hk0 : k0 < ((cfg.atlas_w.fdiv cw) * (cfg.atlas_h.fdiv chh)).toNat)
    (hi0 : regions.get? i0 = some r0) :
    processAtlas cfg libs isz regions tpls o1 p1 =
      Except.ok (runSummary cfg libs cw chh regions tpls o1 p1) ∧
    (runSummary cfg libs cw chh regions tpls o1 p1).1.cards.length =
      ((cfg.atlas_w.fdiv cw) * (cfg.atlas_h.fdiv chh)).toNat ∧
    (∀ k i, ¬(k = k0 ∧ i = i0) →
      entryAt (runSummary cfg libs cw chh regions tpls o1 p1).1 k i =
        entryAt (runSummary cfg libs cw chh regions tpls o2 p2).1 k i) ∧
    (effDoOcr cfg libs = true → o1 k0 i0 = none →
      ocrFailMsg k0 i0 (pyRegionName i0 r0) ∈
        (runSummary cfg libs cw chh regions tpls o1 p1).2) ∧
    (∀ q : Nat → Nat → Nat → ℚ → Option (ℚ × ℚ),
      (runSummary cfg libs cw chh regions tpls o1 p1).2 =
        (runSummary cfg libs cw chh regions tpls o1 q).2) := by
  refine ⟨processAtlas_ok cfg libs isz regions tpls o1 p1 cw chh hg,
    runSummary_cards_length cfg libs cw chh regions tpls o1 p1, ?_, ?_,
    fun q => rfl⟩
  · intro k i hki
    rw [entryAt_runSummary cfg libs cw chh regions tpls o1 p1 k i,
      entryAt_runSummary cfg libs cw chh regions tpls o2 p2 k i]
    obtain ⟨ho, hp⟩ := hag k i hki
    rw [regionTextInput_congr cfg libs o1 o2 k i ho,
      regionMatches_congr cfg libs tpls p1 p2 k i hp]
  · intro hocr ho1
    have hflat : ocrFailMsg k0 i0 (pyRegionName i0 r0) ∈
        ((List.range (((cfg.atlas_w.fdiv cw) *
            (cfg.atlas_h.fdiv chh)).toNat)).map fun k =>
          regions.enum.filterMap fun ir =>
            if effDoOcr cfg libs = true ∧ o1 k ir.1 = none then
              some (ocrFailMsg k ir.1 (pyRegionName ir.1 ir.2))
            else none).flatten := by
      rw [List.mem_flatten]
      refine ⟨_, List.mem_map.mpr ⟨k0, List.mem_range.mpr hk0, rfl⟩, ?_⟩
      rw [List.mem_filterMap]
      refine ⟨(i0, r0), ?_, ?_⟩
      · have henum := List.get?_enum regions i0
        rw [hi0] at henum
        exact List.get?_mem henum
      · rw [if_pos ⟨hocr, ho1⟩]
    exact List.mem_append_right _ hflat

/-- Witness for the amended C8: the fault-isolation theorem applied to
a 2x2-grid run whose OCR oracle raises at card 0, region 0, and whose
log is unchanged by swapping in a matching oracle that raises at every
scale attempt. -/
theorem c8_witness :
    processAtlas cfgW7 libsAll (some (2, 1)) regionsC9 [tplAxe] oNone pNone =
      Except.ok (runSummary cfgW7 libsAll 2 1 regionsC9 [tplAxe] oNone pNone) ∧
    (runSummary cfgW7 libsAll 2 1 regionsC9 [tplAxe] oNone pNone).1.cards.length
      = 4 ∧
    ocrFailMsg 0 0 bigStr ∈
      (runSummary cfgW7 libsAll 2 1 regionsC9 [tplAxe] oNone pNone).2 ∧
    (runSummary cfgW7 libsAll 2 1 regionsC9 [tplAxe] oNone pNone).2 =
      (runSummary cfgW7 libsAll 2 1 regionsC9 [tplAxe] oNone pC3).2 :=
  have h := c8_fault_isolation cfgW7 libsAll (some (2, 1)) regionsC9 [tplAxe]
    oNone oNone pNone pNone 0 0 2 1 bigRegion ⟨rfl, by decide, by decide⟩
    (fun _ _ _ => ⟨rfl, rfl⟩) (by decide) rfl
  ⟨h.1, h.2.1, h.2.2.2.1 rfl rfl, h.2.2.2.2 pC3⟩

/-- C8 counterexample: with OCR off, a run in which every
template-matching scale attempt raises (the oracle returns `none` for
all five scales) completes, records the region's entry, and emits no
log message at all: the script's scale-attempt handler is
`except: continue`, so a template-matching-attempt exception is caught
but never logged, contrary to the claim. -/
theorem c8_matching_log_counterexample :
    processAtlas cfgC8 libsAll (some (100, 100)) regionsC3 [tplAxe]
        oNone pNone = Except.ok runC8 ∧
    (scales.map (pNone 0 0 0)).all (fun a => a.isNone) = true ∧
    regionMatches cfgC8 libsAll [tplAxe] pNone 0 0 = [] ∧
    entryAt runC8.1 0 0 = some { region_index := 0, name := titleStr,
                                 x := 3, y := 4, w := 20, h := 10,
                                 x_abs := 3, y_abs := 4, text := "" } ∧
    runC8.2 = [] := by
  refine ⟨processAtlas_ok cfgC8 libsAll (some (100, 100)) regionsC3 [tplAxe]
    oNone pNone 100 100 ⟨rfl, by decide, by decide⟩, ?_, ?_, ?_, ?_⟩
  · rfl
  · rfl
  · rfl
  · rfl

/-- C9 counterexample: a region extending past the card's right edge
(x = 90, width = 50 on a 100-wide card) is processed anyway and lands
in the summary, so the program does not restrict processing to regions
that fit within one card's bounds. -/
theorem c9_bounds_counterexample :
    processAtlas cfgC9 libsNone (some (100, 100)) regionsC9 [] oNone pNone =
      Except.ok runC9 ∧
    entryC9 = some { region_index := 0, name := bigStr, x := 90, y := 0,
                     w := 50, h := 10, x_abs := 90, y_abs := 0, text := "" } ∧
    entryC9.map (fun e => specFitsCard e 100 100) = some false := by
  refine ⟨processAtlas_ok cfgC9 libsNone (some (100, 100)) regionsC9 []
    oNone pNone 100 100 ⟨rfl, by decide, by decide⟩, ?_, ?_⟩
  · rfl
  · rfl

/-- C9 amended: region coordinates are not validated; every region in
the list is processed for every card and its entry records the given
coordinates, whether or not they fit within one card's bounds. -/
theorem c9_no_bounds_check_amended (cfg : RunConfig) (libs : Libs)
    (isz : Option (Int × Int)) (regions : List Region)
    (tpls : List Template) (o : Nat → Nat → Option String)
    (p : Nat → Nat → Nat → ℚ → Option (ℚ × ℚ)) (cw chh : Int)
    (hg : geometryOk cfg isz cw chh) (s : Summary) (l : List String)
    (hrun : processAtlas cfg libs isz regions tpls o p = Except.ok (s, l))
    (k i : Nat) (r : Region) (hk : k < s.cards.length)
    (hi : regions.get? i = some r) :
    ((s.cards.get? k).map fun c => c.regions.length) = some regions.length ∧
    (entryAt s k i).map RegionEntry.region_index = some i ∧
    (entryAt s k i).map RegionEntry.x = some r.x ∧
    (entryAt s k i).map RegionEntry.y = some r.y ∧
    (entryAt s k i).map RegionEntry.w = some r.width ∧
    (entryAt s k i).map RegionEntry.h = some r.height := by
  have hok := processAtlas_ok cfg libs isz regions tpls o p cw chh hg
  rw [hok] at hrun
  have hs : runSummary cfg libs cw chh regions tpls o p = (s, l) := by
    injection hrun
  have hs1 : s = (runSummary cfg libs cw chh regions tpls o p).1 := by rw [hs]
  subst hs1
  rw [runSummary_cards_length] at hk
  constructor
  · show (((List.range (((cfg.atlas_w.fdiv cw) *
        (cfg.atlas_h.fdiv chh)).toNat)).map
          (cardFor cfg libs cw chh (cfg.atlas_w.fdiv cw) regions tpls o p)).get?
            k).map (fun c => c.regions.length) = some regions.length
    rw [List.get?_map, List.get?_range hk]
    simp [cardFor]
  · rw [entryAt_runSummary cfg libs cw chh regions tpls o p k i, if_pos hk, hi]
    exact ⟨rfl, rfl, rfl, rfl, rfl⟩

/-- Witness for the amended C9: the out-of-bounds region run. -/
theorem c9_amended_witness :
    ((runC9.1.cards.get? 0).map fun c => c.regions.length) = some 1 ∧
    (entryAt runC9.1 0 0).map RegionEntry.w = some bigRegion.width :=
  have h := c9_no_bounds_check_amended cfgC9 libsNone (some (100, 100))
    regionsC9 [] oNone pNone 100 100 ⟨rfl, by decide, by decide⟩
    runC9.1 runC9.2
    (processAtlas_ok cfgC9 libsNone (some (100, 100)) regionsC9 [] oNone pNone
      100 100 ⟨rfl, by decide, by decide⟩)
    0 0 bigRegion (by decide) rfl
  ⟨h.1, h.2.2.2.2.1⟩
